import Mathlib

/-!
Verification of the money-transfer core of simple-bank-v2 (Go).

The development shallowly embeds the transfer engine and its collaborators:

* internal/errors/errors.go and the error-code constants (error taxonomy,
  codeToHTTPStatus);
* internal/model: Account, Entry, Transfer (timestamps are omitted; no
  property below concerns them);
* internal/repository: AccountRepository, TransferRepository,
  EntryRepository, GormTxManager — each repository holds the *root*
  gorm.DB handle (they are constructed with app.db in
  internal/server/app.go), so every SQL statement they issue runs on the
  root connection in autocommit mode;
* internal/service: TransferService (CreateTransfer, execTransfer,
  addMoney) and AccountService.CreateAccount;
* the transfer HTTP handler's decision logic after authentication and
  request binding (internal/server/app.go, TransferHandler.CreateTransfer).

The database is a `DBState`: the three tables, the auto-increment
counters, and a write log (`log`) recording each durably applied write in
issue order.  Machine `int64` arithmetic on balances is modelled by
`wrap64`.  Storage failures are modelled by a fault set inside the state:
`faults` lists the indices (in statement-issue order, counted by `nCalls`)
of the SQL statements that fail with a database error; an empty `faults`
is a fault-free run.
-/

namespace SimpleBank

instance {ε α : Type} [DecidableEq ε] [DecidableEq α] : DecidableEq (Except ε α) := fun x y =>
  match x, y with
  | .ok a, .ok b => decidable_of_iff (a = b) (by simp)
  | .error a, .error b => decidable_of_iff (a = b) (by simp)
  | .ok _, .error _ => isFalse (by simp)
  | .error _, .ok _ => isFalse (by simp)

/-- Two's-complement wraparound of Go `int64` arithmetic. -/
def wrap64 (x : Int) : Int := (x + 2 ^ 63) % 2 ^ 64 - 2 ^ 63

/-! ### Error codes (internal/errors/code.go) -/

def CodeSuccess : Int := 0
def CodeInvalidParams : Int := 40001
def CodeInvalidRequest : Int := 40002
def CodeUnauthorized : Int := 40101
def CodeTokenExpired : Int := 40102
def CodeInvalidToken : Int := 40103
def CodeForbidden : Int := 40301
def CodeAccountBlocked : Int := 40302
def CodeNotFound : Int := 40401
def CodeUserNotFound : Int := 40402
def CodeAccountNotFound : Int := 40403
def CodeAlreadyExists : Int := 40901
def CodeUsernameExists : Int := 40902
def CodeEmailExists : Int := 40903
def CodeInsufficientBalance : Int := 42201
def CodeCurrencyMismatch : Int := 42202
def CodeSameAccount : Int := 42203
def CodePasswordWrong : Int := 42204
def CodeInternalError : Int := 50001
def CodeDatabaseError : Int := 50002

/-- codeMessages lookup plus the "unknown error" default (GetMessage). -/
def GetMessage (code : Int) : String :=
  if code = CodeSuccess then "success"
  else if code = CodeInvalidParams then "invalid parameters"
  else if code = CodeInvalidRequest then "invalid request format"
  else if code = CodeUnauthorized then "unauthorized"
  else if code = CodeTokenExpired then "token expired"
  else if code = CodeInvalidToken then "invalid token"
  else if code = CodeForbidden then "access forbidden"
  else if code = CodeAccountBlocked then "account blocked"
  else if code = CodeNotFound then "resource not found"
  else if code = CodeUserNotFound then "user not found"
  else if code = CodeAccountNotFound then "account not found"
  else if code = CodeAlreadyExists then "resource already exists"
  else if code = CodeUsernameExists then "username already exists"
  else if code = CodeEmailExists then "email already exists"
  else if code = CodeInsufficientBalance then "insufficient balance"
  else if code = CodeCurrencyMismatch then "currency mismatch"
  else if code = CodeSameAccount then "cannot transfer to same account"
  else if code = CodePasswordWrong then "wrong password"
  else if code = CodeInternalError then "internal server error"
  else if code = CodeDatabaseError then "database error"
  else "unknown error"

/-- codeToHTTPStatus (internal/errors/errors.go): the first three digits of
the business code are the HTTP status when they form a recognised status;
otherwise 500.  Go integer division truncates, hence `Int.tdiv`. -/
def codeToHTTPStatus (code : Int) : Int :=
  if code = CodeSuccess then 200
  else
    let httpCode := code.tdiv 100
    if httpCode = 400 ∨ httpCode = 401 ∨ httpCode = 403 ∨ httpCode = 404 ∨
        httpCode = 409 ∨ httpCode = 422 then httpCode
    else if httpCode = 500 ∨ httpCode = 502 ∨ httpCode = 503 then httpCode
    else 500

/-- AppError (internal/errors/errors.go). -/
structure AppError where
  code : Int
  message : String
  httpStatus : Int
deriving Repr, DecidableEq

/-- errors.New: default message, derived HTTP status. -/
def AppError.New (code : Int) : AppError :=
  ⟨code, GetMessage code, codeToHTTPStatus code⟩

/-- errors.NewWithMessage. -/
def NewWithMessage (code : Int) (message : String) : AppError :=
  ⟨code, message, codeToHTTPStatus code⟩

/-- errors.Wrap: wraps an underlying error's text under the given code. -/
def AppError.Wrap (code : Int) (message : String) : AppError :=
  ⟨code, message, codeToHTTPStatus code⟩

def ErrUnauthorized : AppError := AppError.New CodeUnauthorized
def ErrAccountNotFound : AppError := AppError.New CodeAccountNotFound

/-- errors.ErrDatabase: wraps a database error (code 50002). -/
def ErrDatabase (message : String) : AppError :=
  AppError.Wrap CodeDatabaseError message

/-- The database error produced by an injected storage fault.  The
underlying driver text is irrelevant to every property below. -/
def storageFault : AppError := ErrDatabase "storage failure"

/-- The database error produced when the re-read after an UPDATE finds no
row (gorm ErrRecordNotFound wrapped by ErrDatabase, not ErrAccountNotFound
— see AccountRepository.UpdateBalance). -/
def recordNotFound : AppError := ErrDatabase "record not found"

/-! ### Data model (internal/model) -/

/-- model.Account.  CreatedAt/UpdatedAt/DeletedAt are omitted: no claim
concerns timestamps and no code path in scope soft-deletes an account. -/
structure Account where
  id : Nat
  owner : String
  balance : Int
  currency : String
deriving Repr, DecidableEq

/-- model.Entry (CreatedAt omitted). -/
structure Entry where
  id : Nat
  accountID : Nat
  amount : Int
deriving Repr, DecidableEq

/-- model.Transfer (CreatedAt omitted). -/
structure Transfer where
  id : Nat
  fromAccountID : Nat
  toAccountID : Nat
  amount : Int
deriving Repr, DecidableEq

/-- request.CreateTransferRequest (internal/dto/request/account_request.go):
from/to account ids, amount, and a Currency field bound from the JSON
body. -/
structure CreateTransferRequest where
  fromAccountID : Nat
  toAccountID : Nat
  amount : Int
  currency : String
deriving Repr, DecidableEq

/-- request.CreateAccountRequest: only a currency. -/
structure CreateAccountRequest where
  currency : String
deriving Repr, DecidableEq

/-- response.TransferResponse (CreatedAt omitted). -/
structure TransferResponse where
  id : Nat
  fromAccountID : Nat
  toAccountID : Nat
  amount : Int
deriving Repr, DecidableEq

/-- response.AccountResponse (CreatedAt omitted). -/
structure AccountResponse where
  id : Nat
  owner : String
  balance : Int
  currency : String
deriving Repr, DecidableEq

/-- One durably applied write, recorded in issue order. -/
inductive StoreOp where
  | createTransfer (t : Transfer)
  | createEntry (e : Entry)
  | updateBalance (id : Nat) (delta : Int)
deriving Repr, DecidableEq

/-- The database plus the fault-injection oracle.

`nCalls` counts the SQL statements issued so far; a statement whose index
is listed in `faults` fails with `storageFault`.  `log` records every
write that was durably applied, in order. -/
structure DBState where
  accounts : List Account
  transfers : List Transfer
  entries : List Entry
  nextAccountID : Nat
  nextTransferID : Nat
  nextEntryID : Nat
  nCalls : Nat
  faults : List Nat
  log : List StoreOp
deriving Repr, DecidableEq

/-- Whether the next SQL statement fails (injected fault). -/
def DBState.stmtFails (s : DBState) : Bool := s.faults.contains s.nCalls

/-- Account for one issued SQL statement. -/
def DBState.tick (s : DBState) : DBState := { s with nCalls := s.nCalls + 1 }

/-- Balance of the (first) account row with the given id, if any. -/
def balanceOf (s : DBState) (id : Nat) : Option Int :=
  (s.accounts.find? (fun a => a.id == id)).map (fun a => a.balance)

/-! ### Repositories (internal/repository)

Every repository below was constructed with the root gorm.DB
(internal/server/app.go, setupHTTPServer), so each statement runs on the
root connection and autocommits; none runs on a transaction handle. -/

/-- AccountRepository.GetByID: db.First(&account, id);
gorm ErrRecordNotFound becomes ErrAccountNotFound. -/
def AccountRepository.GetByID (s : DBState) (id : Nat) :
    DBState × Except AppError Account :=
  if s.stmtFails then (s.tick, .error storageFault)
  else
    match s.accounts.find? (fun a => a.id == id) with
    | some a => (s.tick, .ok a)
    | none => (s.tick, .error ErrAccountNotFound)

/-- AccountRepository.GetByOwnerAndCurrency: First over
owner = ? AND currency = ?. -/
def AccountRepository.GetByOwnerAndCurrency (s : DBState)
    (owner currency : String) : DBState × Except AppError Account :=
  if s.stmtFails then (s.tick, .error storageFault)
  else
    match s.accounts.find? (fun a => a.owner == owner && a.currency == currency) with
    | some a => (s.tick, .ok a)
    | none => (s.tick, .error ErrAccountNotFound)

/-- AccountRepository.Create: INSERT; a duplicate (owner, currency) violates
the unique index and surfaces as CodeAlreadyExists; gorm assigns the next
primary key to the new row. -/
def AccountRepository.Create (s : DBState) (account : Account) :
    DBState × Except AppError Account :=
  if s.stmtFails then (s.tick, .error storageFault)
  else if s.accounts.any (fun b => b.owner == account.owner && b.currency == account.currency) then
    (s.tick, .error (NewWithMessage CodeAlreadyExists "account with this currency already exists"))
  else
    let a := { account with id := s.nextAccountID }
    ({ s.tick with accounts := s.accounts ++ [a],
                   nextAccountID := s.nextAccountID + 1 }, .ok a)

/-- The row-level effect of
UPDATE accounts SET balance = balance + delta WHERE id = ?
(a single atomic statement; the addition is int64 arithmetic). -/
def applyDelta (id : Nat) (delta : Int) (a : Account) : Account :=
  if a.id = id then { a with balance := wrap64 (a.balance + delta) } else a

/-- AccountRepository.UpdateBalance: the atomic increment UPDATE (first
statement; an unmatched id is not an error there) followed by a re-read
First (second statement; a missing row surfaces as a wrapped database
error, not as ErrAccountNotFound). -/
def AccountRepository.UpdateBalance (s : DBState) (id : Nat) (amount : Int) :
    DBState × Except AppError Account :=
  if s.stmtFails then (s.tick, .error storageFault)
  else
    let s1 : DBState :=
      { s.tick with accounts := s.accounts.map (applyDelta id amount),
                    log := s.log ++ [StoreOp.updateBalance id amount] }
    if s1.stmtFails then (s1.tick, .error storageFault)
    else
      match s1.accounts.find? (fun a => a.id == id) with
      | some a => (s1.tick, .ok a)
      | none => (s1.tick, .error recordNotFound)

/-- TransferRepository.Create: INSERT returning the row with its generated
primary key (gorm writes it back through the pointer). -/
def TransferRepository.Create (s : DBState) (transfer : Transfer) :
    DBState × Except AppError Transfer :=
  if s.stmtFails then (s.tick, .error storageFault)
  else
    let t := { transfer with id := s.nextTransferID }
    ({ s.tick with transfers := s.transfers ++ [t],
                   nextTransferID := s.nextTransferID + 1,
                   log := s.log ++ [StoreOp.createTransfer t] }, .ok t)

/-- EntryRepository.Create: INSERT returning the row with its generated
primary key. -/
def EntryRepository.Create (s : DBState) (entry : Entry) :
    DBState × Except AppError Entry :=
  if s.stmtFails then (s.tick, .error storageFault)
  else
    let e := { entry with id := s.nextEntryID }
    ({ s.tick with entries := s.entries ++ [e],
                   nextEntryID := s.nextEntryID + 1,
                   log := s.log ++ [StoreOp.createEntry e] }, .ok e)

/-- GormTxManager.Transaction (internal/repository/tx_manager.go): begins a
transaction, passes the tx handle to the body, commits iff the body
returns nil and otherwise rolls back the writes made through the tx
handle.  In this service every repository holds the root gorm.DB and
`execTransfer` never touches its tx argument, so every write the body
makes autocommits on the root connection; the rollback finds no tx-side
writes to undo, and the state mutated by the body persists even when the
body fails. -/
def GormTxManager.Transaction {α : Type} (s : DBState)
    (fc : DBState → DBState × Except AppError α) :
    DBState × Except AppError α :=
  fc s

/-! ### TransferService (internal/service/transfer_service.go) -/

/-- TransferResult: the rows produced by a successful execTransfer. -/
structure TransferResult where
  transfer : Transfer
  fromAccount : Account
  toAccount : Account
  fromEntry : Entry
  toEntry : Entry
deriving Repr, DecidableEq

/-- TransferService.addMoney: update the two balances in the order given by
the caller. -/
def TransferService.addMoney (s : DBState) (accountID1 : Nat) (amount1 : Int)
    (accountID2 : Nat) (amount2 : Int) :
    DBState × Except AppError (Account × Account) :=
  match AccountRepository.UpdateBalance s accountID1 amount1 with
  | (s1, .error e) => (s1, .error e)
  | (s1, .ok account1) =>
    match AccountRepository.UpdateBalance s1 accountID2 amount2 with
    | (s2, .error e) => (s2, .error e)
    | (s2, .ok account2) => (s2, .ok (account1, account2))

/-- TransferService.execTransfer: the transaction body — Transfer row, the
two Entry rows, then the two balance updates in ascending account-id
order. -/
def TransferService.execTransfer (s : DBState)
    (fromAccountID toAccountID : Nat) (amount : Int) :
    DBState × Except AppError TransferResult :=
  match TransferRepository.Create s ⟨0, fromAccountID, toAccountID, amount⟩ with
  | (s1, .error e) => (s1, .error e)
  | (s1, .ok transfer) =>
    match EntryRepository.Create s1 ⟨0, fromAccountID, -amount⟩ with
    | (s2, .error e) => (s2, .error e)
    | (s2, .ok fromEntry) =>
      match EntryRepository.Create s2 ⟨0, toAccountID, amount⟩ with
      | (s3, .error e) => (s3, .error e)
      | (s3, .ok toEntry) =>
        if fromAccountID < toAccountID then
          match TransferService.addMoney s3 fromAccountID (-amount) toAccountID amount with
          | (s4, .error e) => (s4, .error e)
          | (s4, .ok (fromAccount, toAccount)) =>
            (s4, .ok ⟨transfer, fromAccount, toAccount, fromEntry, toEntry⟩)
        else
          match TransferService.addMoney s3 toAccountID amount fromAccountID (-amount) with
          | (s4, .error e) => (s4, .error e)
          | (s4, .ok (toAccount, fromAccount)) =>
            (s4, .ok ⟨transfer, fromAccount, toAccount, fromEntry, toEntry⟩)

/-- TransferService.toTransferResponse. -/
def toTransferResponse (t : Transfer) : TransferResponse :=
  ⟨t.id, t.fromAccountID, t.toAccountID, t.amount⟩

/-- TransferService.CreateTransfer: the four precondition checks (source
exists and is owned by the caller, destination exists, currencies equal,
source balance at least the amount), then the transaction. -/
def TransferService.CreateTransfer (s : DBState) (owner : String)
    (req : CreateTransferRequest) : DBState × Except AppError TransferResponse :=
  match AccountRepository.GetByID s req.fromAccountID with
  | (s1, .error e) => (s1, .error e)
  | (s1, .ok fromAccount) =>
    if fromAccount.owner ≠ owner then (s1, .error ErrUnauthorized)
    else
      match AccountRepository.GetByID s1 req.toAccountID with
      | (s2, .error e) => (s2, .error e)
      | (s2, .ok toAccount) =>
        if fromAccount.currency ≠ toAccount.currency then
          (s2, .error (NewWithMessage CodeInvalidRequest "currency mismatch"))
        else if fromAccount.balance < req.amount then
          (s2, .error (NewWithMessage CodeInsufficientBalance "insufficient balance"))
        else
          match GormTxManager.Transaction s2 (fun tx =>
              TransferService.execTransfer tx req.fromAccountID req.toAccountID req.amount) with
          | (s3, .error e) => (s3, .error e)
          | (s3, .ok result) => (s3, .ok (toTransferResponse result.transfer))

/-! ### AccountService (internal/service/transfer_service.go, second half) -/

/-- AccountService.toAccountResponse. -/
def toAccountResponse (a : Account) : AccountResponse :=
  ⟨a.id, a.owner, a.balance, a.currency⟩

/-- AccountService.CreateAccount: an existing (owner, currency) account is
rejected with CodeAlreadyExists; otherwise the model is built with
Balance 0 and the caller's owner and saved.  (Go proceeds to the insert on
*any* lookup error, not only not-found — modelled as written.) -/
def AccountService.CreateAccount (s : DBState) (owner : String)
    (req : CreateAccountRequest) : DBState × Except AppError AccountResponse :=
  match AccountRepository.GetByOwnerAndCurrency s owner req.currency with
  | (s1, .ok _) =>
    (s1, .error (NewWithMessage CodeAlreadyExists "account with this currency already exists"))
  | (s1, .error _) =>
    match AccountRepository.Create s1 ⟨0, owner, 0, req.currency⟩ with
    | (s2, .error e) => (s2, .error e)
    | (s2, .ok a) => (s2, .ok (toAccountResponse a))

/-! ### Transfer HTTP handler (internal/server/app.go) -/

/-- Outcome of TransferHandler.CreateTransfer after authentication and body
binding succeeded: 201 with the response, or a failure status with the
AppError the body carries. -/
inductive HandlerResult where
  | created (resp : TransferResponse)
  | failed (status : Int) (err : AppError)
deriving Repr, DecidableEq

/-- TransferHandler.CreateTransfer, steps 3-5: the handler itself rejects
fromAccountID == toAccountID with CodeSameAccount and HTTP 422 before
calling the service; a service error is answered with the status encoded
in the AppError (handleError / AsAppError); success is 201. -/
def TransferHandler.CreateTransfer (s : DBState) (username : String)
    (req : CreateTransferRequest) : DBState × HandlerResult :=
  if req.fromAccountID = req.toAccountID then
    (s, .failed 422 (NewWithMessage CodeSameAccount "cannot transfer to same account"))
  else
    match TransferService.CreateTransfer s username req with
    | (s', .error e) => (s', .failed e.httpStatus e)
    | (s', .ok resp) => (s', .created resp)

/-! ### Concrete test fixtures -/

/-- The spec's §8 example scenario: account 1 (alice) holds 1000 cents,
account 2 (bob) holds 500, same currency; fault-free. -/
def sampleState : DBState :=
  { accounts := [⟨1, "alice", 1000, "USD"⟩, ⟨2, "bob", 500, "USD"⟩],
    transfers := [], entries := [],
    nextAccountID := 3, nextTransferID := 1, nextEntryID := 1,
    nCalls := 0, faults := [], log := [] }

/-- The sample scenario with the two accounts in different currencies. -/
def mismatchState : DBState :=
  { sampleState with accounts := [⟨1, "alice", 1000, "USD"⟩, ⟨2, "bob", 500, "EUR"⟩] }

/-- The database state produced by the sample transfer (alice sends bob
300); used as the concrete instance of the general success theorems. -/
def sampleSuccess : DBState :=
  (TransferService.CreateTransfer sampleState "alice" ⟨1, 2, 300, "USD"⟩).1

example :
    (TransferService.CreateTransfer sampleState "alice" ⟨1, 2, 300, "USD"⟩).2 =
      .ok ⟨1, 1, 2, 300⟩ := by decide

example :
    balanceOf (TransferService.CreateTransfer sampleState "alice" ⟨1, 2, 300, "USD"⟩).1 1 =
      some 700 := by decide

example :
    balanceOf (TransferService.CreateTransfer sampleState "alice" ⟨1, 2, 300, "USD"⟩).1 2 =
      some 800 := by decide

/-! ### Helper lemmas -/

@[simp] theorem DBState.tick_accounts (s : DBState) : s.tick.accounts = s.accounts := rfl

@[simp] theorem DBState.tick_transfers (s : DBState) : s.tick.transfers = s.transfers := rfl

@[simp] theorem DBState.tick_entries (s : DBState) : s.tick.entries = s.entries := rfl

@[simp] theorem DBState.tick_log (s : DBState) : s.tick.log = s.log := rfl

@[simp] theorem DBState.tick_faults (s : DBState) : s.tick.faults = s.faults := rfl

@[simp] theorem DBState.tick_nCalls (s : DBState) : s.tick.nCalls = s.nCalls + 1 := rfl

@[simp] theorem DBState.tick_nextAccountID (s : DBState) :
    s.tick.nextAccountID = s.nextAccountID := rfl

@[simp] theorem DBState.tick_nextTransferID (s : DBState) :
    s.tick.nextTransferID = s.nextTransferID := rfl

@[simp] theorem DBState.tick_nextEntryID (s : DBState) :
    s.tick.nextEntryID = s.nextEntryID := rfl

theorem DBState.stmtFails_of_faults_nil (s : DBState) (h : s.faults = []) :
    s.stmtFails = false := by
  simp [DBState.stmtFails, h]

/-- An int64 addition that stays inside the representable range does not
wrap. -/
theorem wrap64_eq_self {x : Int} (h1 : -(2 ^ 63) ≤ x) (h2 : x < 2 ^ 63) :
    wrap64 x = x := by
  unfold wrap64
  have : (x + 2 ^ 63) % 2 ^ 64 = x + 2 ^ 63 := Int.emod_eq_of_lt (by omega) (by omega)
  omega

@[simp] theorem applyDelta_id (id : Nat) (delta : Int) (a : Account) :
    (applyDelta id delta a).id = a.id := by
  unfold applyDelta
  split <;> rfl

theorem applyDelta_balance_eq {a : Account} {id : Nat} {delta : Int}
    (h : a.id = id) :
    (applyDelta id delta a).balance = wrap64 (a.balance + delta) := by
  unfold applyDelta
  rw [if_pos h]

theorem applyDelta_of_ne {a : Account} {id : Nat} {delta : Int}
    (h : a.id ≠ id) : applyDelta id delta a = a := by
  unfold applyDelta
  rw [if_neg h]

/-- Searching by id is unaffected by a balance update: `applyDelta`
preserves account ids. -/
@[simp] theorem find?_comp_applyDelta (l : List Account) (id k : Nat) (delta : Int) :
    l.find? ((fun a => a.id == k) ∘ applyDelta id delta) =
      l.find? (fun a => a.id == k) := by
  have hfun : ((fun a => a.id == k) ∘ applyDelta id delta) =
      (fun a : Account => a.id == k) := by
    funext a
    simp [Function.comp, applyDelta_id]
  rw [hfun]

/-- Searching by id is likewise unaffected by two successive balance
updates. -/
@[simp] theorem find?_comp_applyDelta2 (l : List Account) (id1 id2 k : Nat) (d1 d2 : Int) :
    l.find? ((fun a => a.id == k) ∘ applyDelta id2 d2 ∘ applyDelta id1 d1) =
      l.find? (fun a => a.id == k) := by
  have hfun : ((fun a => a.id == k) ∘ applyDelta id2 d2 ∘ applyDelta id1 d1) =
      (fun a : Account => a.id == k) := by
    funext a
    simp [Function.comp, applyDelta_id]
  rw [hfun]

/-- The re-read after an atomic increment UPDATE finds exactly the updated
row: `applyDelta` preserves account ids. -/
theorem find?_map_applyDelta (l : List Account) (id k : Nat) (delta : Int) :
    (l.map (applyDelta id delta)).find? (fun a => a.id == k) =
      (l.find? (fun a => a.id == k)).map (applyDelta id delta) := by
  rw [List.find?_map, find?_comp_applyDelta]

/-- The state a fault-free successful CreateTransfer leaves behind, given
the pre-state and the request fields: the Transfer row, the debit and
credit Entry rows, the two balance updates applied in ascending-id order,
and nine issued SQL statements. -/
def successState (s : DBState) (fromID toID : Nat) (amount : Int) : DBState :=
  let t : Transfer := ⟨s.nextTransferID, fromID, toID, amount⟩
  let e1 : Entry := ⟨s.nextEntryID, fromID, -amount⟩
  let e2 : Entry := ⟨s.nextEntryID + 1, toID, amount⟩
  let u1 : Nat := if fromID < toID then fromID else toID
  let d1 : Int := if fromID < toID then -amount else amount
  let u2 : Nat := if fromID < toID then toID else fromID
  let d2 : Int := if fromID < toID then amount else -amount
  { accounts := (s.accounts.map (applyDelta u1 d1)).map (applyDelta u2 d2),
    transfers := s.transfers ++ [t],
    entries := s.entries ++ [e1, e2],
    nextAccountID := s.nextAccountID,
    nextTransferID := s.nextTransferID + 1,
    nextEntryID := s.nextEntryID + 2,
    nCalls := s.nCalls + 9,
    faults := s.faults,
    log := s.log ++ [StoreOp.createTransfer t, StoreOp.createEntry e1, StoreOp.createEntry e2,
                     StoreOp.updateBalance u1 d1, StoreOp.updateBalance u2 d2] }

/-- Fault-free forward run of CreateTransfer when every precondition
passes: the result is the success state and the transfer response. -/
theorem createTransfer_run_ok (s : DBState) (owner : String)
    (req : CreateTransferRequest) (fa ta : Account)
    (hfaults : s.faults = [])
    (hfa : s.accounts.find? (fun a => a.id == req.fromAccountID) = some fa)
    (howner : fa.owner = owner)
    (hta : s.accounts.find? (fun a => a.id == req.toAccountID) = some ta)
    (hcur : fa.currency = ta.currency)
    (hbal : ¬ fa.balance < req.amount) :
    TransferService.CreateTransfer s owner req =
      (successState s req.fromAccountID req.toAccountID req.amount,
       .ok ⟨s.nextTransferID, req.fromAccountID, req.toAccountID, req.amount⟩) := by
  obtain ⟨A, T, E, na, nt, ne, nc, fl, lg⟩ := s
  simp only at hfaults hfa hta
  subst hfaults
  by_cases hlt : req.fromAccountID < req.toAccountID
  · simp [TransferService.CreateTransfer, AccountRepository.GetByID,
      TransferService.execTransfer, TransferRepository.Create, EntryRepository.Create,
      TransferService.addMoney, AccountRepository.UpdateBalance,
      GormTxManager.Transaction, toTransferResponse, successState,
      DBState.stmtFails, DBState.tick, find?_map_applyDelta,
      hfa, hta, howner, hcur, hbal, hlt]
  · simp [TransferService.CreateTransfer, AccountRepository.GetByID,
      TransferService.execTransfer, TransferRepository.Create, EntryRepository.Create,
      TransferService.addMoney, AccountRepository.UpdateBalance,
      GormTxManager.Transaction, toTransferResponse, successState,
      DBState.stmtFails, DBState.tick, find?_map_applyDelta,
      hfa, hta, howner, hcur, hbal, hlt]

/-- Inversion: a fault-free successful CreateTransfer implies each of the
four precondition checks passed, the final state is the success state, and
the response echoes the request fields with the generated transfer id. -/
theorem createTransfer_ok_inv (s s' : DBState) (owner : String)
    (req : CreateTransferRequest) (resp : TransferResponse)
    (hfaults : s.faults = [])
    (hok : TransferService.CreateTransfer s owner req = (s', .ok resp)) :
    ∃ fa ta,
      s.accounts.find? (fun a => a.id == req.fromAccountID) = some fa ∧
      fa.owner = owner ∧
      s.accounts.find? (fun a => a.id == req.toAccountID) = some ta ∧
      fa.currency = ta.currency ∧
      ¬ fa.balance < req.amount ∧
      s' = successState s req.fromAccountID req.toAccountID req.amount ∧
      resp = ⟨s.nextTransferID, req.fromAccountID, req.toAccountID, req.amount⟩ := by
  cases hfa : s.accounts.find? (fun a => a.id == req.fromAccountID) with
  | none =>
    exfalso
    simp [TransferService.CreateTransfer, AccountRepository.GetByID,
      DBState.stmtFails_of_faults_nil s hfaults, hfa] at hok
  | some fa =>
    by_cases howner : fa.owner = owner
    · cases hta : s.accounts.find? (fun a => a.id == req.toAccountID) with
      | none =>
        exfalso
        simp [TransferService.CreateTransfer, AccountRepository.GetByID,
          DBState.stmtFails_of_faults_nil s hfaults,
          DBState.stmtFails_of_faults_nil s.tick (by simpa using hfaults),
          hfa, hta, howner] at hok
      | some ta =>
        by_cases hcur : fa.currency = ta.currency
        · by_cases hbal : fa.balance < req.amount
          · exfalso
            simp [TransferService.CreateTransfer, AccountRepository.GetByID,
              DBState.stmtFails_of_faults_nil s hfaults,
              DBState.stmtFails_of_faults_nil s.tick (by simpa using hfaults),
              hfa, hta, howner, hcur, hbal] at hok
          · rw [createTransfer_run_ok s owner req fa ta hfaults hfa howner hta hcur hbal] at hok
            injection hok with h1 h2
            injection h2 with h2
            exact ⟨fa, ta, rfl, howner, rfl, hcur, hbal, h1.symm, h2.symm⟩
        · exfalso
          simp [TransferService.CreateTransfer, AccountRepository.GetByID,
            DBState.stmtFails_of_faults_nil s hfaults,
            DBState.stmtFails_of_faults_nil s.tick (by simpa using hfaults),
            hfa, hta, howner, hcur] at hok
    · exfalso
      simp [TransferService.CreateTransfer, AccountRepository.GetByID,
        DBState.stmtFails_of_faults_nil s hfaults, hfa, howner] at hok

/-- The updateBalance statement issued by a write-log element, if it is
one. -/
def updateOf : StoreOp → Option (Nat × Int)
  | StoreOp.updateBalance id delta => some (id, delta)
  | _ => none

/-- The balance-update statements of a write log, in issue order. -/
def balanceUpdates (l : List StoreOp) : List (Nat × Int) := l.filterMap updateOf

/-- Balance lookup in the success state: the row found before the transfer,
with the two branch-ordered deltas applied. -/
theorem balanceOf_successState (s : DBState) (fromID toID k : Nat) (amount : Int)
    (r : Account) (hr : s.accounts.find? (fun x => x.id == k) = some r) :
    balanceOf (successState s fromID toID amount) k =
      some (if fromID < toID
            then (applyDelta toID amount (applyDelta fromID (-amount) r)).balance
            else (applyDelta fromID (-amount) (applyDelta toID amount r)).balance) := by
  by_cases hlt : fromID < toID <;>
    simp [balanceOf, successState, find?_map_applyDelta, hr, hlt]

/-- Inversion of AccountRepository.Create on success: the stored row is the
argument with the generated id, appended to the table. -/
theorem accountCreate_ok_inv (s s2 : DBState) (acct a : Account)
    (h : AccountRepository.Create s acct = (s2, .ok a)) :
    a = { acct with id := s.nextAccountID } ∧
    s2.accounts = s.accounts ++ [{ acct with id := s.nextAccountID }] := by
  unfold AccountRepository.Create at h
  split at h
  · simp at h
  · split at h
    · simp at h
    · injection h with h1 h2
      injection h2 with h2
      exact ⟨h2.symm, by rw [← h1]⟩

/-- GetByOwnerAndCurrency issues exactly one statement whatever its
outcome. -/
theorem getByOwnerAndCurrency_state (s : DBState) (owner currency : String) :
    (AccountRepository.GetByOwnerAndCurrency s owner currency).1 = s.tick := by
  unfold AccountRepository.GetByOwnerAndCurrency
  split
  · rfl
  · split <;> rfl

/-! ### Claims -/

/-- C1: the claim that a failed CreateTransfer leaves the ledger unchanged
(no Transfer row, no Entry row, no balance change) is violated by the
code.  With the sample ledger (alice 1000, bob 500) and a 300-cent
transfer whose second balance UPDATE (the eighth SQL statement of the
attempt) fails, CreateTransfer returns the storage error, yet the Transfer
row, both Entry rows and the first balance update (alice 1000 to 700, bob
untouched) remain durably committed: the repositories write on the root
connection, so the transaction rollback undoes none of them. -/
theorem c1_failed_transfer_persists_rows :
    (TransferService.CreateTransfer { sampleState with faults := [7] } "alice"
        ⟨1, 2, 300, "USD"⟩).2 = .error storageFault ∧
    (TransferService.CreateTransfer { sampleState with faults := [7] } "alice"
        ⟨1, 2, 300, "USD"⟩).1.transfers = [⟨1, 1, 2, 300⟩] ∧
    (TransferService.CreateTransfer { sampleState with faults := [7] } "alice"
        ⟨1, 2, 300, "USD"⟩).1.entries = [⟨1, 1, -300⟩, ⟨2, 2, 300⟩] ∧
    balanceOf (TransferService.CreateTransfer { sampleState with faults := [7] } "alice"
        ⟨1, 2, 300, "USD"⟩).1 1 = some 700 ∧
    balanceOf (TransferService.CreateTransfer { sampleState with faults := [7] } "alice"
        ⟨1, 2, 300, "USD"⟩).1 2 = some 500 := by
  decide

/-- C2 counterexample: the transaction body (execTransfer) performs no
balance-sufficiency check at all.  Run with a source balance (1000) far
below the amount (5000), it succeeds — no InsufficientBalance — and
commits a negative source balance. -/
theorem c2_counterexample_no_check_inside_transaction :
    (TransferService.execTransfer sampleState 1 2 5000).2 =
      .ok ⟨⟨1, 1, 2, 5000⟩, ⟨1, "alice", -4000, "USD"⟩, ⟨2, "bob", 5500, "USD"⟩,
           ⟨1, 1, -5000⟩, ⟨2, 2, 5000⟩⟩ ∧
    balanceOf (TransferService.execTransfer sampleState 1 2 5000).1 1 = some (-4000) := by
  decide

/-- C2 (amended): balance sufficiency is checked only at the precondition
stage of CreateTransfer, against the balance read there, before the
transaction is opened: when that balance is below the amount the service
returns InsufficientBalance having issued only the two account reads — no
row and no balance change is written.  No re-check happens inside the
transaction body. -/
theorem c2_balance_checked_only_at_precondition (s : DBState) (owner : String)
    (req : CreateTransferRequest) (fa ta : Account)
    (hfaults : s.faults = [])
    (hfa : s.accounts.find? (fun a => a.id == req.fromAccountID) = some fa)
    (howner : fa.owner = owner)
    (hta : s.accounts.find? (fun a => a.id == req.toAccountID) = some ta)
    (hcur : fa.currency = ta.currency)
    (hbal : fa.balance < req.amount) :
    TransferService.CreateTransfer s owner req =
      (s.tick.tick, .error (NewWithMessage CodeInsufficientBalance "insufficient balance")) ∧
    s.tick.tick.accounts = s.accounts ∧
    s.tick.tick.transfers = s.transfers ∧
    s.tick.tick.entries = s.entries ∧
    s.tick.tick.log = s.log ∧
    (NewWithMessage CodeInsufficientBalance "insufficient balance").code =
      CodeInsufficientBalance := by
  refine ⟨?_, rfl, rfl, rfl, rfl, rfl⟩
  simp [TransferService.CreateTransfer, AccountRepository.GetByID,
    DBState.stmtFails_of_faults_nil s hfaults,
    DBState.stmtFails_of_faults_nil s.tick (by simpa using hfaults),
    hfa, hta, howner, hcur, hbal]

/-- C2 witness: the precondition-stage rejection at the concrete sample
state (alice holds 1000, requests 5000). -/
theorem c2_witness :
    sampleState.faults = [] ∧
    sampleState.accounts.find? (fun a => a.id == 1) = some ⟨1, "alice", 1000, "USD"⟩ ∧
    ((1000 : Int) < 5000) ∧
    TransferService.CreateTransfer sampleState "alice" ⟨1, 2, 5000, "USD"⟩ =
      (sampleState.tick.tick,
       .error (NewWithMessage CodeInsufficientBalance "insufficient balance")) :=
  ⟨by decide, by decide, by decide,
   (c2_balance_checked_only_at_precondition sampleState "alice" ⟨1, 2, 5000, "USD"⟩
      ⟨1, "alice", 1000, "USD"⟩ ⟨2, "bob", 500, "USD"⟩ (by decide) (by decide) (by decide)
      (by decide) (by decide) (by decide)).1⟩

/-- C3: in every fault-free committed transfer between distinct accounts,
the two balance updates inside the transaction are issued in ascending
account-id order — the lower id first, whichever logical role it plays —
with the from account receiving -amount and the to account receiving
+amount. -/
theorem c3_updates_in_ascending_id_order (s s' : DBState) (owner : String)
    (req : CreateTransferRequest) (resp : TransferResponse)
    (hfaults : s.faults = [])
    (hne : req.fromAccountID ≠ req.toAccountID)
    (hok : TransferService.CreateTransfer s owner req = (s', .ok resp)) :
    balanceUpdates (s'.log.drop s.log.length) =
      [(min req.fromAccountID req.toAccountID,
        if req.fromAccountID < req.toAccountID then -req.amount else req.amount),
       (max req.fromAccountID req.toAccountID,
        if req.fromAccountID < req.toAccountID then req.amount else -req.amount)] ∧
    min req.fromAccountID req.toAccountID < max req.fromAccountID req.toAccountID ∧
    (req.fromAccountID, -req.amount) ∈ balanceUpdates (s'.log.drop s.log.length) ∧
    (req.toAccountID, req.amount) ∈ balanceUpdates (s'.log.drop s.log.length) := by
  obtain ⟨fa, ta, hfa, howner, hta, hcur, hbal, rfl, hresp⟩ :=
    createTransfer_ok_inv s s' owner req resp hfaults hok
  by_cases hlt : req.fromAccountID < req.toAccountID
  · have hmin : min req.fromAccountID req.toAccountID = req.fromAccountID :=
      Nat.min_eq_left hlt.le
    have hmax : max req.fromAccountID req.toAccountID = req.toAccountID :=
      Nat.max_eq_right hlt.le
    refine ⟨?_, ?_, ?_, ?_⟩ <;>
      simp [successState, balanceUpdates, updateOf, List.drop_left, hlt, hmin, hmax]
  · have hgt : req.toAccountID < req.fromAccountID := by omega
    have hmin : min req.fromAccountID req.toAccountID = req.toAccountID :=
      Nat.min_eq_right hgt.le
    have hmax : max req.fromAccountID req.toAccountID = req.fromAccountID :=
      Nat.max_eq_left hgt.le
    refine ⟨?_, ?_, ?_, ?_⟩ <;>
      simp [successState, balanceUpdates, updateOf, List.drop_left, hlt, hmin, hmax, hgt]

/-- C3 witness: the sample transfer 1 to 2 of 300 updates account 1 with
-300 first and account 2 with +300 second. -/
theorem c3_witness :
    sampleState.faults = [] ∧ ((1 : Nat) ≠ 2) ∧
    balanceUpdates (sampleSuccess.log.drop sampleState.log.length) =
      [(1, -300), (2, 300)] :=
  ⟨rfl, by decide,
   (c3_updates_in_ascending_id_order sampleState sampleSuccess "alice"
      ⟨1, 2, 300, "USD"⟩ ⟨1, 1, 2, 300⟩ rfl (by decide) (by decide)).1⟩

/-- C4: the claim that every committed Transfer row has its two Entry rows
created in the same atomic transaction is violated by the code.  When the
first Entry INSERT (the fourth SQL statement) fails, CreateTransfer
returns the storage error, yet the Transfer row stays durably committed
with zero Entry rows — it was written through the root connection, outside
the transaction being rolled back. -/
theorem c4_transfer_row_committed_without_entries :
    (TransferService.CreateTransfer { sampleState with faults := [3] } "alice"
        ⟨1, 2, 300, "USD"⟩).2 = .error storageFault ∧
    (TransferService.CreateTransfer { sampleState with faults := [3] } "alice"
        ⟨1, 2, 300, "USD"⟩).1.transfers = [⟨1, 1, 2, 300⟩] ∧
    (TransferService.CreateTransfer { sampleState with faults := [3] } "alice"
        ⟨1, 2, 300, "USD"⟩).1.entries = [] ∧
    balanceOf (TransferService.CreateTransfer { sampleState with faults := [3] } "alice"
        ⟨1, 2, 300, "USD"⟩).1 1 = some 1000 := by
  decide

/-- C5: after every fault-free committed transfer, every account balance is
still nonnegative: the precondition rejects any amount exceeding the
source balance, and the only mutations are -amount on the source and
+amount on the destination (stated over a bank whose balances are
nonnegative, bounded away from int64 overflow, for a positive bounded
amount, with distinct primary keys). -/
theorem c5_balances_nonnegative_after_commit (s s' : DBState) (owner : String)
    (req : CreateTransferRequest) (resp : TransferResponse)
    (hfaults : s.faults = [])
    (hnodup : (s.accounts.map (fun a => a.id)).Nodup)
    (hpos : ∀ a ∈ s.accounts, 0 ≤ a.balance)
    (hbound : ∀ a ∈ s.accounts, a.balance < 2 ^ 62)
    (hamt : 0 < req.amount) (hamt2 : req.amount < 2 ^ 62)
    (hok : TransferService.CreateTransfer s owner req = (s', .ok resp)) :
    ∀ a ∈ s'.accounts, 0 ≤ a.balance := by
  obtain ⟨fa, ta, hfa, howner, hta, hcur, hbal, rfl, hresp⟩ :=
    createTransfer_ok_inv s s' owner req resp hfaults hok
  have hfaid : fa.id = req.fromAccountID := by
    have := List.find?_some hfa
    simpa using this
  have hfam : fa ∈ s.accounts := List.mem_of_find?_eq_some hfa
  intro a ha
  simp only [successState] at ha
  rw [List.map_map] at ha
  obtain ⟨r, hr, rfl⟩ := List.mem_map.mp ha
  have hreq : r.id = req.fromAccountID → r = fa := fun h =>
    List.inj_on_of_nodup_map hnodup hr hfam (by rw [h, hfaid])
  have hrpos := hpos r hr
  have hrbound := hbound r hr
  simp only [Function.comp_apply]
  by_cases hlt : req.fromAccountID < req.toAccountID
  · rw [if_pos hlt, if_pos hlt, if_pos hlt, if_pos hlt]
    by_cases h1 : r.id = req.fromAccountID
    · obtain rfl : r = fa := hreq h1
      have hfb : req.amount ≤ r.balance := by omega
      rw [applyDelta_of_ne (by rw [applyDelta_id]; omega),
        applyDelta_balance_eq h1,
        wrap64_eq_self (by omega) (by omega)]
      omega
    · by_cases h2 : r.id = req.toAccountID
      · rw [applyDelta_of_ne h1, applyDelta_balance_eq h2,
          wrap64_eq_self (by omega) (by omega)]
        omega
      · rw [applyDelta_of_ne h1, applyDelta_of_ne h2]
        exact hrpos
  · rw [if_neg hlt, if_neg hlt, if_neg hlt, if_neg hlt]
    by_cases h2 : r.id = req.toAccountID
    · by_cases h1 : r.id = req.fromAccountID
      · rw [applyDelta_balance_eq (by rw [applyDelta_id]; exact h1),
          applyDelta_balance_eq h2,
          show wrap64 (r.balance + req.amount) = r.balance + req.amount from
            wrap64_eq_self (by omega) (by omega),
          show r.balance + req.amount + -req.amount = r.balance by ring,
          wrap64_eq_self (by omega) (by omega)]
        omega
      · rw [applyDelta_of_ne (by rw [applyDelta_id]; exact h1),
          applyDelta_balance_eq h2,
          wrap64_eq_self (by omega) (by omega)]
        omega
    · by_cases h1 : r.id = req.fromAccountID
      · obtain rfl : r = fa := hreq h1
        have hfb : req.amount ≤ r.balance := by omega
        rw [applyDelta_of_ne h2, applyDelta_balance_eq h1,
          wrap64_eq_self (by omega) (by omega)]
        omega
      · rw [applyDelta_of_ne h2, applyDelta_of_ne h1]
        exact hrpos

/-- C5 witness: after the sample committed transfer every balance is
nonnegative. -/
theorem c5_witness :
    sampleState.faults = [] ∧
    (sampleState.accounts.map (fun a => a.id)).Nodup ∧
    (∀ a ∈ sampleState.accounts, 0 ≤ a.balance) ∧
    ((0 : Int) < 300) ∧
    ∀ a ∈ sampleSuccess.accounts, 0 ≤ a.balance :=
  ⟨rfl, by decide, by decide, by decide,
   c5_balances_nonnegative_after_commit sampleState sampleSuccess "alice"
     ⟨1, 2, 300, "USD"⟩ ⟨1, 1, 2, 300⟩ rfl (by decide) (by decide) (by decide)
     (by decide) (by decide) (by decide)⟩

/-- C6 counterexample: TransferService.CreateTransfer itself performs no
same-account check.  Invoked directly with fromAccountID = toAccountID = 1
(owned, funded), it succeeds and writes a Transfer row and two offsetting
Entry rows — not a CodeSameAccount hard error with no writes. -/
theorem c6_counterexample_service_accepts_same_account :
    (TransferService.CreateTransfer sampleState "alice" ⟨1, 1, 100, "USD"⟩).2 =
      .ok ⟨1, 1, 1, 100⟩ ∧
    (TransferService.CreateTransfer sampleState "alice" ⟨1, 1, 100, "USD"⟩).1.transfers =
      [⟨1, 1, 1, 100⟩] ∧
    (TransferService.CreateTransfer sampleState "alice" ⟨1, 1, 100, "USD"⟩).1.entries =
      [⟨1, 1, -100⟩, ⟨2, 1, 100⟩] ∧
    balanceOf (TransferService.CreateTransfer sampleState "alice" ⟨1, 1, 100, "USD"⟩).1 1 =
      some 1000 := by
  decide

/-- C6 (amended): the same-account precondition is enforced one layer up,
in the HTTP handler (TransferHandler.CreateTransfer step 3): a request
with fromAccountID = toAccountID is answered 422 with CodeSameAccount
(42203) before the service is invoked, leaving the state untouched. -/
theorem c6_handler_rejects_same_account (s : DBState) (username : String)
    (req : CreateTransferRequest) (h : req.fromAccountID = req.toAccountID) :
    TransferHandler.CreateTransfer s username req =
      (s, .failed 422 (NewWithMessage CodeSameAccount "cannot transfer to same account")) ∧
    (NewWithMessage CodeSameAccount "cannot transfer to same account").code = CodeSameAccount ∧
    CodeSameAccount = 42203 := by
  refine ⟨?_, rfl, rfl⟩
  simp [TransferHandler.CreateTransfer, h]

/-- C6 witness: the handler rejects the concrete same-account request. -/
theorem c6_witness :
    ((1 : Nat) = 1) ∧
    TransferHandler.CreateTransfer sampleState "alice" ⟨1, 1, 100, "USD"⟩ =
      (sampleState,
       .failed 422 (NewWithMessage CodeSameAccount "cannot transfer to same account")) :=
  ⟨rfl, (c6_handler_rejects_same_account sampleState "alice" ⟨1, 1, 100, "USD"⟩ rfl).1⟩

/-- C7 counterexample: a transfer between two existing accounts with
different currencies is rejected with code 40002 (CodeInvalidRequest,
mapped to HTTP 400), not with the CurrencyMismatch value 42202 mapped to
422 as claimed. -/
theorem c7_counterexample_mismatch_code_40002 :
    (TransferService.CreateTransfer mismatchState "alice" ⟨1, 2, 100, "USD"⟩).2 =
      .error (NewWithMessage CodeInvalidRequest "currency mismatch") ∧
    (NewWithMessage CodeInvalidRequest "currency mismatch").code = 40002 ∧
    (NewWithMessage CodeInvalidRequest "currency mismatch").code ≠ CodeCurrencyMismatch ∧
    (NewWithMessage CodeInvalidRequest "currency mismatch").httpStatus = 400 := by
  decide

/-- C7 (amended): a currency mismatch between two existing accounts is
rejected before the transaction with an AppError of code
CodeInvalidRequest (40002), which the numeric first-three-digits
convention maps to HTTP 400; the taxonomy codes themselves map as
AccountNotFound (40403) to 404 and InsufficientBalance (42201),
CurrencyMismatch (42202), SameAccount (42203) to 422. -/
theorem c7_currency_mismatch_and_status_mapping (s : DBState) (owner : String)
    (req : CreateTransferRequest) (fa ta : Account)
    (hfaults : s.faults = [])
    (hfa : s.accounts.find? (fun a => a.id == req.fromAccountID) = some fa)
    (howner : fa.owner = owner)
    (hta : s.accounts.find? (fun a => a.id == req.toAccountID) = some ta)
    (hcur : fa.currency ≠ ta.currency) :
    TransferService.CreateTransfer s owner req =
      (s.tick.tick, .error (NewWithMessage CodeInvalidRequest "currency mismatch")) ∧
    (NewWithMessage CodeInvalidRequest "currency mismatch").code = 40002 ∧
    (NewWithMessage CodeInvalidRequest "currency mismatch").httpStatus = 400 ∧
    s.tick.tick.accounts = s.accounts ∧
    s.tick.tick.transfers = s.transfers ∧
    s.tick.tick.entries = s.entries ∧
    codeToHTTPStatus CodeAccountNotFound = 404 ∧
    codeToHTTPStatus CodeInsufficientBalance = 422 ∧
    codeToHTTPStatus CodeCurrencyMismatch = 422 ∧
    codeToHTTPStatus CodeSameAccount = 422 := by
  refine ⟨?_, by decide, by decide, rfl, rfl, rfl, by decide, by decide, by decide, by decide⟩
  simp [TransferService.CreateTransfer, AccountRepository.GetByID,
    DBState.stmtFails_of_faults_nil s hfaults,
    DBState.stmtFails_of_faults_nil s.tick (by simpa using hfaults),
    hfa, hta, howner, hcur]

/-- C7 witness: the concrete USD/EUR pair is rejected with 40002 and no
write. -/
theorem c7_witness :
    mismatchState.faults = [] ∧
    (("USD" : String) ≠ "EUR") ∧
    TransferService.CreateTransfer mismatchState "alice" ⟨1, 2, 100, "USD"⟩ =
      (mismatchState.tick.tick,
       .error (NewWithMessage CodeInvalidRequest "currency mismatch")) :=
  ⟨rfl, by decide,
   (c7_currency_mismatch_and_status_mapping mismatchState "alice" ⟨1, 2, 100, "USD"⟩
      ⟨1, "alice", 1000, "USD"⟩ ⟨2, "bob", 500, "EUR"⟩ (by decide) (by decide) (by decide)
      (by decide) (by decide)).1⟩

/-- C8: every fault-free committed transfer between two distinct accounts
conserves the pair's total balance: the source decreases by exactly the
amount, the destination increases by exactly the amount (within int64
range), so the sums before and after agree. -/
theorem c8_balance_conservation (s s' : DBState) (owner : String)
    (req : CreateTransferRequest) (resp : TransferResponse) (bf bt : Int)
    (hfaults : s.faults = [])
    (hne : req.fromAccountID ≠ req.toAccountID)
    (hok : TransferService.CreateTransfer s owner req = (s', .ok resp))
    (hbf : balanceOf s req.fromAccountID = some bf)
    (hbt : balanceOf s req.toAccountID = some bt)
    (hlo1 : -(2 ^ 63) ≤ bf - req.amount) (hhi1 : bf - req.amount < 2 ^ 63)
    (hlo2 : -(2 ^ 63) ≤ bt + req.amount) (hhi2 : bt + req.amount < 2 ^ 63) :
    balanceOf s' req.fromAccountID = some (bf - req.amount) ∧
    balanceOf s' req.toAccountID = some (bt + req.amount) ∧
    bf - req.amount + (bt + req.amount) = bf + bt := by
  obtain ⟨fa, ta, hfa, howner, hta, hcur, hbal, rfl, hresp⟩ :=
    createTransfer_ok_inv s s' owner req resp hfaults hok
  have hfaid : fa.id = req.fromAccountID := by
    have := List.find?_some hfa
    simpa using this
  have htaid : ta.id = req.toAccountID := by
    have := List.find?_some hta
    simpa using this
  have hbf' : fa.balance = bf := by
    unfold balanceOf at hbf
    rw [hfa] at hbf
    simpa using hbf
  have hbt' : ta.balance = bt := by
    unfold balanceOf at hbt
    rw [hta] at hbt
    simpa using hbt
  refine ⟨?_, ?_, by ring⟩
  · rw [balanceOf_successState s req.fromAccountID req.toAccountID req.fromAccountID
      req.amount fa hfa]
    by_cases hlt : req.fromAccountID < req.toAccountID
    · rw [if_pos hlt,
        applyDelta_of_ne (by rw [applyDelta_id]; omega),
        applyDelta_balance_eq hfaid, hbf',
        show bf + -req.amount = bf - req.amount by ring,
        wrap64_eq_self hlo1 hhi1]
    · rw [if_neg hlt,
        show applyDelta req.toAccountID req.amount fa = fa from
          applyDelta_of_ne (by rw [hfaid]; omega),
        applyDelta_balance_eq hfaid, hbf',
        show bf + -req.amount = bf - req.amount by ring,
        wrap64_eq_self hlo1 hhi1]
  · rw [balanceOf_successState s req.fromAccountID req.toAccountID req.toAccountID
      req.amount ta hta]
    by_cases hlt : req.fromAccountID < req.toAccountID
    · rw [if_pos hlt,
        show applyDelta req.fromAccountID (-req.amount) ta = ta from
          applyDelta_of_ne (by rw [htaid]; omega),
        applyDelta_balance_eq htaid, hbt',
        wrap64_eq_self hlo2 hhi2]
    · rw [if_neg hlt,
        applyDelta_of_ne (by rw [applyDelta_id]; omega),
        applyDelta_balance_eq htaid, hbt',
        wrap64_eq_self hlo2 hhi2]

/-- C8 witness: the sample transfer moves alice 1000 to 700 and bob 500 to
800; the sum 1500 is conserved. -/
theorem c8_witness :
    sampleState.faults = [] ∧ ((1 : Nat) ≠ 2) ∧
    balanceOf sampleState 1 = some 1000 ∧ balanceOf sampleState 2 = some 500 ∧
    balanceOf sampleSuccess 1 = some 700 ∧ balanceOf sampleSuccess 2 = some 800 :=
  ⟨rfl, by decide, by decide, by decide,
   (c8_balance_conservation sampleState sampleSuccess "alice" ⟨1, 2, 300, "USD"⟩
      ⟨1, 1, 2, 300⟩ 1000 500 rfl (by decide) (by decide) (by decide) (by decide)
      (by decide) (by decide) (by decide) (by decide)).1,
   (c8_balance_conservation sampleState sampleSuccess "alice" ⟨1, 2, 300, "USD"⟩
      ⟨1, 1, 2, 300⟩ 1000 500 rfl (by decide) (by decide) (by decide) (by decide)
      (by decide) (by decide) (by decide) (by decide)).2.1⟩

/-- C9: every account created through AccountService.CreateAccount starts
with balance exactly 0, owner taken from the authenticated caller and
currency from the request (whose only field is the currency, so no initial
balance can be supplied). -/
theorem c9_created_account_balance_zero (s s' : DBState) (owner : String)
    (req : CreateAccountRequest) (resp : AccountResponse)
    (hok : AccountService.CreateAccount s owner req = (s', .ok resp)) :
    resp.balance = 0 ∧ resp.owner = owner ∧ resp.currency = req.currency ∧
    resp.id = s.nextAccountID ∧
    s'.accounts = s.accounts ++ [⟨s.nextAccountID, owner, 0, req.currency⟩] := by
  unfold AccountService.CreateAccount at hok
  rcases hlk : AccountRepository.GetByOwnerAndCurrency s owner req.currency with ⟨s1, r1⟩
  have hs1 : s1 = s.tick := by
    have h := getByOwnerAndCurrency_state s owner req.currency
    rw [hlk] at h
    exact h
  rw [hlk] at hok
  cases r1 with
  | ok a0 => simp at hok
  | error e0 =>
    dsimp only at hok
    rcases hcr : AccountRepository.Create s1 ⟨0, owner, 0, req.currency⟩ with ⟨s2, r2⟩
    rw [hcr] at hok
    cases r2 with
    | error e => simp at hok
    | ok a =>
      obtain ⟨ha, hacc⟩ := accountCreate_ok_inv s1 s2 _ a hcr
      injection hok with h1 h2
      injection h2 with h2
      subst hs1
      refine ⟨?_, ?_, ?_, ?_, ?_⟩
      · rw [← h2, ha]
        rfl
      · rw [← h2, ha]
        rfl
      · rw [← h2, ha]
        rfl
      · rw [← h2, ha]
        rfl
      · rw [← h1, hacc]
        rfl

/-- C9 witness: creating a USD account for carol on the sample state yields
balance 0. -/
theorem c9_witness :
    AccountService.CreateAccount sampleState "carol" ⟨"USD"⟩ =
      ((AccountService.CreateAccount sampleState "carol" ⟨"USD"⟩).1,
       .ok ⟨3, "carol", 0, "USD"⟩) ∧
    (⟨3, "carol", 0, "USD"⟩ : AccountResponse).balance = 0 ∧
    (AccountService.CreateAccount sampleState "carol" ⟨"USD"⟩).1.accounts =
      sampleState.accounts ++ [⟨3, "carol", 0, "USD"⟩] :=
  ⟨by decide, by decide,
   ((c9_created_account_balance_zero sampleState
      (AccountService.CreateAccount sampleState "carol" ⟨"USD"⟩).1 "carol" ⟨"USD"⟩
      ⟨3, "carol", 0, "USD"⟩ (by decide)).2.2.2.2)⟩

/-- C10: the Currency field of CreateTransferRequest is never compared to
either account's currency: any two transfer requests that agree on the
account ids and the amount produce identical outcomes (state and result),
whatever their Currency values. -/
theorem c10_request_currency_never_compared (s : DBState) (owner : String)
    (req req' : CreateTransferRequest)
    (h1 : req.fromAccountID = req'.fromAccountID)
    (h2 : req.toAccountID = req'.toAccountID)
    (h3 : req.amount = req'.amount) :
    TransferService.CreateTransfer s owner req =
      TransferService.CreateTransfer s owner req' := by
  rcases req with ⟨f, t, a, c⟩
  rcases req' with ⟨f', t', a', c'⟩
  obtain rfl : f = f' := h1
  obtain rfl : t = t' := h2
  obtain rfl : a = a' := h3
  rfl

/-- C10 witness: the sample request with Currency USD and the same request
with Currency EUR run identically. -/
theorem c10_witness :
    ((1 : Nat) = 1) ∧ ((2 : Nat) = 2) ∧ ((300 : Int) = 300) ∧
    TransferService.CreateTransfer sampleState "alice" ⟨1, 2, 300, "USD"⟩ =
      TransferService.CreateTransfer sampleState "alice" ⟨1, 2, 300, "EUR"⟩ :=
  ⟨rfl, rfl, rfl,
   c10_request_currency_never_compared sampleState "alice"
     ⟨1, 2, 300, "USD"⟩ ⟨1, 2, 300, "EUR"⟩ rfl rfl rfl⟩

end SimpleBank
